import Mathlib

/-!
Shallow embedding of `src/app.js` of com.athom.comparison: the settings
document, the token registry, and the timer/comparison engine
(`action_START` / `action_END`), together with the host-visible call trace.
JavaScript numbers are modelled as rationals (plus an explicit NaN), the
clock (`new Date()`) as an explicit `now : Nat` parameter, and host
persistence success as an explicit `persistOk : Bool` parameter.
-/

/-- A JavaScript value as it occurs in this app: `null`, `NaN`, a number,
or a string. -/
inductive JSVal where
  | null
  | nan
  | num (q : ℚ)
  | str (s : String)
  deriving DecidableEq, Repr

/-- JavaScript truthiness for the values above: `null`, `NaN`, `0` and `""`
are falsy, everything else truthy. -/
def JSVal.truthy : JSVal → Bool
  | .null => false
  | .nan => false
  | .num q => q != 0
  | .str s => s != ""

/-- An entry of the COMPARISONS list. `action_START` (src/app.js:144) builds
it as the object literal `{ token, date, comparison }`: the key holding the
name is `token`, and `date` is either `null` or a `Date` (modelled as a
millisecond timestamp). -/
structure CompEntry where
  token : String
  date : Option Nat
  comparison : JSVal
  deriving DecidableEq, Repr

/-- JS property access `setting.name` on a COMPARISONS entry. The objects
created by `action_START` are `{ token, date, comparison }`; they have no
`name` property, so the access yields `undefined`, modelled as `none`. -/
def CompEntry.nameProp (_ : CompEntry) : Option String := none

/-- An entry of the TOTALS list. `action_END` (src/app.js:166) builds it as
`{ token, duration, comparison }`. -/
structure TotalEntry where
  token : String
  duration : Option String
  comparison : JSVal
  deriving DecidableEq, Repr

/-- JS property access `total.name` on a TOTALS entry: the objects created by
`action_END` have no `name` property, so the access yields `undefined`
(`none`). -/
def TotalEntry.nameProp (_ : TotalEntry) : Option String := none

/-- The settings document: three named lists (src/app.js:49-53). -/
structure Settings where
  VARIABLES : List String
  COMPARISONS : List CompEntry
  TOTALS : List TotalEntry
  deriving DecidableEq, Repr

/-- A live token handle as held in `this.TOKENS`: its host-side type and
title, whether it is currently registered with the host (set false by
`unregister()`), and its current value. -/
structure Token where
  type : String
  title : String
  registered : Bool
  value : JSVal
  deriving DecidableEq, Repr

/-- Host calls observable from the outside: token registration
(`homey.flow.createToken`), `handle.unregister()`, `handle.setValue(v)`,
and settings persistence (`homey.settings.set`). -/
inductive HostEvent where
  | register (id : String)
  | unregister (id : String)
  | setValue (id : String) (v : JSVal)
  | persist
  deriving DecidableEq, Repr

/-- The app state: the in-memory settings document, the `this.TOKENS`
registry (a JS object, modelled as an association list with unique keys in
insertion order), the trace of host calls made so far, the last successfully
persisted settings document, and the number of errors swallowed by
`this.error(err)` catch blocks. -/
structure AppState where
  appSettings : Settings
  TOKENS : List (String × Token)
  events : List HostEvent
  persisted : Option Settings
  loggedErrors : Nat
  deriving DecidableEq, Repr

/-- Property lookup `this.TOKENS[id]` on the registry object. -/
def lookupToken : List (String × Token) → String → Option Token
  | [], _ => none
  | p :: rest, id => if p.1 = id then some p.2 else lookupToken rest id

/-- The effect of `handle.setValue(v)` on the handle stored under `id`. -/
def setTokenValue : List (String × Token) → String → JSVal → List (String × Token)
  | [], _, _ => []
  | p :: rest, id, v =>
      (if p.1 = id then (p.1, { p.2 with value := v }) else p) :: setTokenValue rest id v

/-- The effect of `handle.unregister()` on the handle stored under `id`:
the host-side registration is gone, the local object survives. -/
def setTokenUnregistered : List (String × Token) → String → List (String × Token)
  | [], _ => []
  | p :: rest, id =>
      (if p.1 = id then (p.1, { p.2 with registered := false }) else p) :: setTokenUnregistered rest id

/-- Modelled from the spec: `this.homey.__(key)`, the host localization
lookup, is provided by the host runtime and is not under src/. Per spec §6
it maps a key to a localized string; distinct keys yield distinct suffixes.
Modelled as the identity on keys. -/
def homeyTranslate (key : String) : String := key

/-- Modelled from the spec: `formatToken` lives in lib/helpers.js, which is
not under src/. Per spec §4.1 it deterministically normalizes a display
title into an identifier and must be collision-resistant for distinct
titles; modelled as the identity (deterministic and injective). -/
def formatToken (title : String) : String := title

/-- The `src` field interpolated into the template `helpers.${src}`:
JavaScript renders `null` as the text "null". -/
def srcStr : Option String → String
  | some s => s
  | none => "null"

/-- The token identifier derived by `createToken`/`removeToken` from a
variable name and a kind: `formatToken` of the title
`` `${name} ${this.homey.__(`helpers.${src}`)}` ``. -/
def mkTokenId (name : String) (src : Option String) : String :=
  formatToken (name ++ " " ++ homeyTranslate ("helpers." ++ srcStr src))

/-- The option object of `createToken` after merging with
`defaultOptions = { src: null, value: null, type: 'string' }`. -/
structure TokenOptions where
  src : Option String := none
  value : JSVal := JSVal.null
  type : String := "string"
  deriving DecidableEq, Repr

/-- `createToken(name, paramOptions)` (src/app.js:95-117): derive the id
from the title; if `!this.TOKENS[id]` (no handle stored — handles are
objects, hence truthy), register a new token with the host and store the
handle; in both cases call `this.TOKENS[id].setValue(value)`. -/
def createToken (s : AppState) (name : String) (paramOptions : TokenOptions) : AppState :=
  let suffix := homeyTranslate ("helpers." ++ srcStr paramOptions.src)
  let title := name ++ " " ++ suffix
  let id := formatToken title
  let s1 :=
    match lookupToken s.TOKENS id with
    | none =>
        { s with
          TOKENS := s.TOKENS ++
            [(id, ({ type := paramOptions.type, title := title, registered := true,
                     value := JSVal.null } : Token))]
          events := s.events ++ [HostEvent.register id] }
    | some _ => s
  { s1 with
    TOKENS := setTokenValue s1.TOKENS id paramOptions.value
    events := s1.events ++ [HostEvent.setValue id paramOptions.value] }

/-- `removeToken(name, src)` (src/app.js:119-128): derive the same id; if a
handle is stored, call `unregister()` on it. The handle is NOT deleted from
`this.TOKENS` (the source has no `delete this.TOKENS[id]`). -/
def removeToken (s : AppState) (name : String) (src : String) : AppState :=
  let suffix := homeyTranslate ("helpers." ++ src)
  let title := name ++ " " ++ suffix
  let id := formatToken title
  match lookupToken s.TOKENS id with
  | some _ =>
      { s with
        TOKENS := setTokenUnregistered s.TOKENS id
        events := s.events ++ [HostEvent.unregister id] }
  | none => s

/-- The body of the `newSettings.forEach` loop of `setTokens`
(src/app.js:77-82): four `createToken` calls for one variable name. -/
def createVariableTokens (s : AppState) (t : String) : AppState :=
  let s := createToken s t { src := some "duration" }
  let s := createToken s t { src := some "currency", type := "string" }
  let s := createToken s t { src := some "comparison", type := "number" }
  createToken s t { src := some "calculation", type := "number" }

/-- The body of the `difference.forEach` loop of `setTokens`
(src/app.js:86-91): four `removeToken` calls for one variable name. -/
def removeVariableTokens (s : AppState) (d : String) : AppState :=
  let s := removeToken s d "duration"
  let s := removeToken s d "currency"
  let s := removeToken s d "comparison"
  removeToken s d "calculation"

/-- `setTokens(newSettings, oldSettings = [])` (src/app.js:76-93): create
the four kind tokens for every new name; then, `if (oldSettings.length)`,
remove the four kind tokens of every name of `oldSettings` that
`newSettings` does not include. -/
def setTokens (s : AppState) (newSettings : List String) (oldSettings : List String) : AppState :=
  let s1 := newSettings.foldl createVariableTokens s
  if oldSettings.length ≠ 0 then
    (oldSettings.filter (fun x => !(newSettings.contains x))).foldl removeVariableTokens s1
  else s1

/-- `updateSettings(settings, update = false)` (src/app.js:60-74): replace
the in-memory document, persist it, and when `update` holds run `setTokens`
on new vs old VARIABLES. The whole body is inside `try { .. } catch (err)
{ this.error(err); }`: a persistence failure is logged and not propagated
(and the steps after the failed `await` do not run). -/
def updateSettings (s : AppState) (settings : Settings) (update : Bool) (persistOk : Bool) : AppState :=
  let oldSettings := s.appSettings
  let s1 := { s with appSettings := settings }
  if persistOk then
    let s2 := { s1 with persisted := some settings, events := s1.events ++ [HostEvent.persist] }
    if update then setTokens s2 settings.VARIABLES oldSettings.VARIABLES else s2
  else
    { s1 with loggedErrors := s1.loggedErrors + 1 }

/-- The option object of `action_START` after merging with
`defaultOptions = { dateStart: null, comparison: null }`. `dateStart` is
`null` or a `Date`. -/
structure StartOptions where
  dateStart : Option Nat := none
  comparison : JSVal := JSVal.null
  deriving DecidableEq, Repr

/-- `action_START(token, paramOptions)` (src/app.js:132-146).
`const date = dateStart ? new Date() : dateStart;`: when `dateStart` is
truthy the CURRENT time is taken (the passed date is discarded), otherwise
`date` is the falsy `dateStart` itself (`null`). The COMPARISONS list is
filtered by `setting.name !== token`; entries carry no `name` property, so
the comparison is `undefined !== token` and every entry is kept. -/
def action_START (s : AppState) (token : String) (paramOptions : StartOptions)
    (now : Nat) (persistOk : Bool) : AppState :=
  let date : Option Nat :=
    match paramOptions.dateStart with
    | some _ => some now
    | none => none
  let newSettings := s.appSettings.COMPARISONS.filter (fun setting => setting.nameProp != some token)
  updateSettings s
    { s.appSettings with
      COMPARISONS := newSettings ++ [{ token := token, date := date, comparison := paramOptions.comparison }] }
    false persistOk

/-- A thrown JavaScript error: a TypeError (property access on `undefined`,
payload: the token name being looked up), or `new Error(msg)`. -/
inductive JSError where
  | typeError (token : String)
  | error (msg : String)
  deriving DecidableEq, Repr

/-- Modelled from the spec: `splitTime` lives in lib/helpers.js, which is
not under src/. Per spec §4.2 it renders a duration as a localized
human-readable string; modelled as printing the raw count of seconds. -/
def splitTime (seconds : ℚ) : String := toString seconds ++ " seconds"

/-- `calculateDuration(startDate, endDate)` (src/app.js:189-192):
`Math.abs(startDate - endDate) / 1000`, fed to `splitTime`. -/
def calculateDuration (startDate endDate : Nat) : String :=
  splitTime (((max startDate endDate - min startDate endDate : Nat) : ℚ) / 1000)

/-- JS `parseFloat` on the values this app feeds it (numbers, `null`, the
decimal strings produced by `toFixed(2)`): `none` is NaN. String parsing is
modelled for plain decimal literals with an optional sign. -/
def parseFloat : JSVal → Option ℚ
  | .num q => some q
  | .null => none
  | .nan => none
  | .str s =>
      let core := fun (t : String) =>
        match t.splitOn "." with
        | [a] => (a.toNat?).map (fun n => (n : ℚ))
        | [a, b] =>
            match a.toNat?, b.toNat? with
            | some n, some f => some ((n : ℚ) + (f : ℚ) / ((10 : ℚ) ^ b.length))
            | _, _ => none
        | _ => none
      if s.startsWith "-" then (core (s.drop 1)).map (fun q => -q)
      else core s

/-- JS `Number.prototype.toFixed(2)` on an exact rational: two decimal
digits, rounding half away from zero. -/
def toFixed2 (q : ℚ) : String :=
  let n : ℤ := if q ≥ 0 then ⌊q * 100 + 1 / 2⌋ else -⌊(-q) * 100 + 1 / 2⌋
  let sign := if n < 0 then "-" else ""
  let m := n.natAbs
  let frac := m % 100
  sign ++ toString (m / 100) ++ "." ++ (if frac < 10 then "0" else "") ++ toString frac

/-- `calculateComparison(start, end)` (src/app.js:194-197):
`parseFloat(end) - parseFloat(start)`, then `comparison ? comparison.toFixed(2) : 0`
— a zero (or NaN) difference yields the NUMBER `0`, otherwise the two-decimal
STRING. -/
def calculateComparison (start fin : JSVal) : JSVal :=
  match parseFloat fin, parseFloat start with
  | some e, some st =>
      let comparison := e - st
      if comparison ≠ 0 then JSVal.str (toFixed2 comparison) else JSVal.num 0
  | _, _ => JSVal.num 0

/-- The JS value passed as `value: duration` (a string or `null`). -/
def optStrVal : Option String → JSVal
  | some s => JSVal.str s
  | none => JSVal.null

/-- The JS number produced by `parseFloat(comparison)` as a token value. -/
def numFromParse : Option ℚ → JSVal
  | some q => JSVal.num q
  | none => JSVal.nan

/-- `action_END(token, value = null)` (src/app.js:148-173). The lookup is
`COMPARISONS.find((x) => x.name === token)`; entries carry no `name`
property, so `find` yields `undefined` for every token, and the very next
line `existing_comparison.date` throws a TypeError — before the
`if (!existing_comparison)` NotFound check (which is dead code: when an
entry object were found it would be truthy). On the (unreachable-by-find
failure) success path: compute duration and comparison, replace the TOTALS
list (filtered by the equally absent `total.name`), persist via
`updateSettings`, and update the duration token always and the comparison
token only when `comparison` is truthy. -/
def action_END (s : AppState) (token : String) (value : JSVal)
    (now : Nat) (persistOk : Bool) : Except JSError AppState :=
  match s.appSettings.COMPARISONS.find? (fun x => x.nameProp == some token) with
  | none => Except.error (JSError.typeError token)
  | some existing_comparison =>
      let date : Option Nat := if existing_comparison.date.isSome then some now else none
      let duration : Option String :=
        match date with
        | some d => some (calculateDuration (existing_comparison.date.getD 0) d)
        | none => none
      let comparison : JSVal :=
        if value.truthy then calculateComparison existing_comparison.comparison value else JSVal.null
      let totals := s.appSettings.TOTALS.filter (fun total => total.nameProp != some token)
      let s1 := updateSettings s
        { s.appSettings with
          TOTALS := totals ++ [{ token := token, duration := duration, comparison := comparison }] }
        false persistOk
      let s2 := createToken s1 token { src := some "duration", value := optStrVal duration }
      let s3 :=
        if comparison.truthy then
          createToken s2 token
            { src := some "comparison", value := numFromParse (parseFloat comparison), type := "number" }
        else s2
      Except.ok s3

/-- The state right after `initSettings` on a fresh install (src/app.js:49-53):
the default document and an empty registry. -/
def initialState : AppState :=
  { appSettings := { VARIABLES := [], COMPARISONS := [], TOTALS := [] }
    TOKENS := []
    events := []
    persisted := some { VARIABLES := [], COMPARISONS := [], TOTALS := [] }
    loggedErrors := 0 }

/-- The value stored for `id`, when a handle exists. -/
def lookupValue (s : AppState) (id : String) : Option JSVal :=
  (lookupToken s.TOKENS id).map Token.value

/-- The four token kinds created per variable name by `setTokens`. -/
def kindSrcs : List String := ["duration", "currency", "comparison", "calculation"]

/-- Identifier `id` is not host-registered in state `s`: whatever handle the
registry holds for it (if any) has been unregistered. -/
def Unregd (s : AppState) (id : String) : Prop :=
  ∀ tok, lookupToken s.TOKENS id = some tok → tok.registered = false

/-- Count of `unregister` host calls in a trace. -/
def countUnregister (l : List HostEvent) : Nat :=
  l.countP (fun e => match e with | HostEvent.unregister _ => true | _ => false)

/-- Lookup after `setValue` at the same id: the stored handle with its value
replaced. -/
theorem lookupToken_setTokenValue_self (l : List (String × Token)) (id : String) (v : JSVal) :
    lookupToken (setTokenValue l id v) id = (lookupToken l id).map (fun t => { t with value := v }) := by
  induction l with
  | nil => rfl
  | cons p rest ih =>
    by_cases h : p.1 = id
    · simp [setTokenValue, lookupToken, h]
    · simp [setTokenValue, lookupToken, h, ih]

/-- Lookup after `setValue` at a different id is unchanged. -/
theorem lookupToken_setTokenValue_ne (l : List (String × Token)) (id id' : String) (v : JSVal)
    (h : id' ≠ id) :
    lookupToken (setTokenValue l id v) id' = lookupToken l id' := by
  induction l with
  | nil => rfl
  | cons p rest ih =>
    by_cases hp : p.1 = id
    · simp [setTokenValue, lookupToken, hp, Ne.symm h, ih]
    · simp [setTokenValue, lookupToken, hp, ih]

/-- Lookup after `unregister` at the same id: the stored handle with
`registered` cleared. -/
theorem lookupToken_setTokenUnregistered_self (l : List (String × Token)) (id : String) :
    lookupToken (setTokenUnregistered l id) id =
      (lookupToken l id).map (fun t => { t with registered := false }) := by
  induction l with
  | nil => rfl
  | cons p rest ih =>
    by_cases h : p.1 = id
    · simp [setTokenUnregistered, lookupToken, h]
    · simp [setTokenUnregistered, lookupToken, h, ih]

/-- Lookup after `unregister` at a different id is unchanged. -/
theorem lookupToken_setTokenUnregistered_ne (l : List (String × Token)) (id id' : String)
    (h : id' ≠ id) :
    lookupToken (setTokenUnregistered l id) id' = lookupToken l id' := by
  induction l with
  | nil => rfl
  | cons p rest ih =>
    by_cases hp : p.1 = id
    · simp [setTokenUnregistered, lookupToken, hp, Ne.symm h, ih]
    · simp [setTokenUnregistered, lookupToken, hp, ih]

/-- Appending a fresh binding at the end is found when nothing earlier
matches. -/
theorem lookupToken_append_single_self (l : List (String × Token)) (id : String) (tok : Token)
    (h : lookupToken l id = none) :
    lookupToken (l ++ [(id, tok)]) id = some tok := by
  induction l with
  | nil => simp [lookupToken]
  | cons p rest ih =>
    by_cases hp : p.1 = id
    · simp [lookupToken, hp] at h
    · simp only [lookupToken, hp] at h
      simp [lookupToken, hp, ih h]

/-- Appending a binding for another id does not change a lookup. -/
theorem lookupToken_append_single_ne (l : List (String × Token)) (id id' : String) (tok : Token)
    (h : id' ≠ id) :
    lookupToken (l ++ [(id, tok)]) id' = lookupToken l id' := by
  induction l with
  | nil => simp [lookupToken, Ne.symm h]
  | cons p rest ih =>
    by_cases hp : p.1 = id'
    · simp [lookupToken, hp]
    · simp [lookupToken, hp, ih]

/-- After `createToken`, the handle under the derived id holds exactly the
supplied value (whether freshly registered or reused). -/
theorem lookupValue_createToken_self (s : AppState) (n : String) (opts : TokenOptions) :
    lookupValue (createToken s n opts) (mkTokenId n opts.src) = some opts.value := by
  simp only [lookupValue, createToken, mkTokenId]
  cases h : lookupToken s.TOKENS
      (formatToken (n ++ " " ++ homeyTranslate ("helpers." ++ srcStr opts.src))) with
  | none =>
      simp [h, lookupToken_setTokenValue_self,
        lookupToken_append_single_self _ _ _ h]
  | some t =>
      simp [h, lookupToken_setTokenValue_self]

/-- `createToken` leaves every other id's handle untouched. -/
theorem lookupToken_createToken_ne (s : AppState) (n : String) (opts : TokenOptions)
    (id' : String) (h : id' ≠ mkTokenId n opts.src) :
    lookupToken (createToken s n opts).TOKENS id' = lookupToken s.TOKENS id' := by
  simp only [createToken]
  rw [mkTokenId] at h
  cases hl : lookupToken s.TOKENS
      (formatToken (n ++ " " ++ homeyTranslate ("helpers." ++ srcStr opts.src))) with
  | none =>
      simp [hl, lookupToken_setTokenValue_ne _ _ _ _ h,
        lookupToken_append_single_ne _ _ _ _ h]
  | some t =>
      simp [hl, lookupToken_setTokenValue_ne _ _ _ _ h]

/-- A handle that already holds `null` still holds `null` after any of the
null-initializing `createToken` calls of `setTokens`. -/
theorem lookupValue_createToken_null (s : AppState) (n : String) (opts : TokenOptions)
    (id : String) (hv : opts.value = JSVal.null) (h : lookupValue s id = some JSVal.null) :
    lookupValue (createToken s n opts) id = some JSVal.null := by
  by_cases hid : id = mkTokenId n opts.src
  · subst hid; rw [lookupValue_createToken_self, hv]
  · unfold lookupValue at h ⊢
    rw [lookupToken_createToken_ne s n opts id hid]
    exact h

/-- `removeToken` never changes any stored value (it only clears the
`registered` flag of its own handle). -/
theorem lookupValue_removeToken (s : AppState) (n k id : String) :
    lookupValue (removeToken s n k) id = lookupValue s id := by
  simp only [lookupValue, removeToken]
  cases hl : lookupToken s.TOKENS (formatToken (n ++ " " ++ homeyTranslate ("helpers." ++ k))) with
  | none => rfl
  | some t =>
      by_cases hid : id = formatToken (n ++ " " ++ homeyTranslate ("helpers." ++ k))
      · subst hid
        simp [hl, lookupToken_setTokenUnregistered_self]
      · simp [lookupToken_setTokenUnregistered_ne _ _ _ hid]

/-- After `removeToken`, its own id is not host-registered: a stored handle
has been unregistered, and an absent handle was never registered here. -/
theorem removeToken_unregd_self (s : AppState) (d k : String) :
    Unregd (removeToken s d k) (mkTokenId d (some k)) := by
  intro tok htok
  simp only [removeToken] at htok
  cases hl : lookupToken s.TOKENS (formatToken (d ++ " " ++ homeyTranslate ("helpers." ++ k))) with
  | none =>
      simp only [hl] at htok
      rw [mkTokenId, srcStr] at htok
      rw [htok] at hl
      cases hl
  | some t =>
      simp only [hl] at htok
      rw [mkTokenId, srcStr, lookupToken_setTokenUnregistered_self, hl] at htok
      cases htok
      rfl

/-- `removeToken` preserves unregisteredness of every id. -/
theorem removeToken_unregd_preserve (s : AppState) (d k id : String) (h : Unregd s id) :
    Unregd (removeToken s d k) id := by
  by_cases hid : id = mkTokenId d (some k)
  · subst hid; exact removeToken_unregd_self s d k
  · intro tok htok
    simp only [removeToken] at htok
    cases hl : lookupToken s.TOKENS (formatToken (d ++ " " ++ homeyTranslate ("helpers." ++ k))) with
    | none =>
        simp only [hl] at htok
        exact h tok htok
    | some t =>
        rw [mkTokenId, srcStr] at hid
        simp only [hl] at htok
        rw [lookupToken_setTokenUnregistered_ne _ _ _ hid] at htok
        exact h tok htok

/-- One pass of the `setTokens` create loop leaves all four kind tokens of
its variable holding `null`. -/
theorem lookupValue_createVariableTokens_self (s : AppState) (t : String)
    (k : String) (hk : k ∈ kindSrcs) :
    lookupValue (createVariableTokens s t) (mkTokenId t (some k)) = some JSVal.null := by
  simp only [kindSrcs, List.mem_cons, List.mem_singleton, List.not_mem_nil, or_false] at hk
  simp only [createVariableTokens]
  rcases hk with rfl | rfl | rfl | rfl
  · exact lookupValue_createToken_null _ _ _ _ rfl
      (lookupValue_createToken_null _ _ _ _ rfl
        (lookupValue_createToken_null _ _ _ _ rfl
          (lookupValue_createToken_self _ _ _)))
  · exact lookupValue_createToken_null _ _ _ _ rfl
      (lookupValue_createToken_null _ _ _ _ rfl
        (lookupValue_createToken_self _ _ _))
  · exact lookupValue_createToken_null _ _ _ _ rfl
      (lookupValue_createToken_self _ _ _)
  · exact lookupValue_createToken_self _ _ _

/-- One pass of the `setTokens` create loop preserves a stored `null` value
under any id. -/
theorem lookupValue_createVariableTokens_null (s : AppState) (t id : String)
    (h : lookupValue s id = some JSVal.null) :
    lookupValue (createVariableTokens s t) id = some JSVal.null := by
  simp only [createVariableTokens]
  exact lookupValue_createToken_null _ _ _ _ rfl
    (lookupValue_createToken_null _ _ _ _ rfl
      (lookupValue_createToken_null _ _ _ _ rfl
        (lookupValue_createToken_null _ _ _ _ rfl h)))

/-- The whole create loop preserves a stored `null` value. -/
theorem lookupValue_foldl_create_null (l : List String) (s : AppState) (id : String)
    (h : lookupValue s id = some JSVal.null) :
    lookupValue (l.foldl createVariableTokens s) id = some JSVal.null := by
  induction l generalizing s with
  | nil => exact h
  | cons t rest ih => exact ih _ (lookupValue_createVariableTokens_null s t id h)

/-- After the create loop, every listed variable's four kind tokens hold
`null`. -/
theorem lookupValue_foldl_create_mem : ∀ (l : List String) (s : AppState) (t : String),
    t ∈ l → ∀ k ∈ kindSrcs,
    lookupValue (l.foldl createVariableTokens s) (mkTokenId t (some k)) = some JSVal.null := by
  intro l
  induction l with
  | nil => intro s t ht; cases ht
  | cons a rest ih =>
    intro s t ht k hk
    simp only [List.foldl_cons]
    rcases List.mem_cons.mp ht with rfl | hmem
    · exact lookupValue_foldl_create_null rest _ _ (lookupValue_createVariableTokens_self s t k hk)
    · exact ih _ t hmem k hk

/-- One pass of the remove loop never changes stored values. -/
theorem lookupValue_removeVariableTokens (s : AppState) (d id : String) :
    lookupValue (removeVariableTokens s d) id = lookupValue s id := by
  simp only [removeVariableTokens]
  rw [lookupValue_removeToken, lookupValue_removeToken, lookupValue_removeToken,
    lookupValue_removeToken]

/-- The whole remove loop never changes stored values. -/
theorem lookupValue_foldl_remove (l : List String) (s : AppState) (id : String) :
    lookupValue (l.foldl removeVariableTokens s) id = lookupValue s id := by
  induction l generalizing s with
  | nil => rfl
  | cons d rest ih => rw [List.foldl_cons, ih, lookupValue_removeVariableTokens]

/-- One pass of the remove loop unregisters all four kind tokens of its
variable. -/
theorem removeVariableTokens_unregd_self (s : AppState) (d : String)
    (k : String) (hk : k ∈ kindSrcs) :
    Unregd (removeVariableTokens s d) (mkTokenId d (some k)) := by
  simp only [kindSrcs, List.mem_cons, List.mem_singleton, List.not_mem_nil, or_false] at hk
  simp only [removeVariableTokens]
  rcases hk with rfl | rfl | rfl | rfl
  · exact removeToken_unregd_preserve _ _ _ _
      (removeToken_unregd_preserve _ _ _ _
        (removeToken_unregd_preserve _ _ _ _
          (removeToken_unregd_self _ _ _)))
  · exact removeToken_unregd_preserve _ _ _ _
      (removeToken_unregd_preserve _ _ _ _
        (removeToken_unregd_self _ _ _))
  · exact removeToken_unregd_preserve _ _ _ _
      (removeToken_unregd_self _ _ _)
  · exact removeToken_unregd_self _ _ _

/-- One pass of the remove loop preserves unregisteredness of any id. -/
theorem removeVariableTokens_unregd_preserve (s : AppState) (d id : String)
    (h : Unregd s id) : Unregd (removeVariableTokens s d) id := by
  simp only [removeVariableTokens]
  exact removeToken_unregd_preserve _ _ _ _
    (removeToken_unregd_preserve _ _ _ _
      (removeToken_unregd_preserve _ _ _ _
        (removeToken_unregd_preserve _ _ _ _ h)))

/-- The whole remove loop preserves unregisteredness of any id. -/
theorem foldl_remove_unregd_preserve (l : List String) (s : AppState) (id : String)
    (h : Unregd s id) : Unregd (l.foldl removeVariableTokens s) id := by
  induction l generalizing s with
  | nil => exact h
  | cons d rest ih => exact ih _ (removeVariableTokens_unregd_preserve s d id h)

/-- After the remove loop, every listed variable's four kind tokens are
unregistered. -/
theorem foldl_remove_unregd_mem : ∀ (l : List String) (s : AppState) (d : String),
    d ∈ l → ∀ k ∈ kindSrcs,
    Unregd (l.foldl removeVariableTokens s) (mkTokenId d (some k)) := by
  intro l
  induction l with
  | nil => intro s d hd; cases hd
  | cons a rest ih =>
    intro s d hd k hk
    simp only [List.foldl_cons]
    rcases List.mem_cons.mp hd with rfl | hmem
    · exact foldl_remove_unregd_preserve rest _ _ (removeVariableTokens_unregd_self s d k hk)
    · exact ih _ d hmem k hk

/-- `createToken` touches only the registry and the event trace. -/
theorem createToken_frame (s : AppState) (n : String) (opts : TokenOptions) :
    (createToken s n opts).appSettings = s.appSettings ∧
    (createToken s n opts).persisted = s.persisted ∧
    (createToken s n opts).loggedErrors = s.loggedErrors := by
  simp only [createToken]
  cases hl : lookupToken s.TOKENS
      (formatToken (n ++ " " ++ homeyTranslate ("helpers." ++ srcStr opts.src))) <;>
    simp [hl]

/-- `removeToken` touches only the registry and the event trace. -/
theorem removeToken_frame (s : AppState) (n k : String) :
    (removeToken s n k).appSettings = s.appSettings ∧
    (removeToken s n k).persisted = s.persisted ∧
    (removeToken s n k).loggedErrors = s.loggedErrors := by
  simp only [removeToken]
  cases hl : lookupToken s.TOKENS (formatToken (n ++ " " ++ homeyTranslate ("helpers." ++ k))) <;>
    simp [hl]

/-- `setTokens` touches only the registry and the event trace. -/
theorem setTokens_frame (s : AppState) (newNames oldNames : List String) :
    (setTokens s newNames oldNames).appSettings = s.appSettings ∧
    (setTokens s newNames oldNames).persisted = s.persisted ∧
    (setTokens s newNames oldNames).loggedErrors = s.loggedErrors := by
  have hc : ∀ (s : AppState) (t : String),
      (createVariableTokens s t).appSettings = s.appSettings ∧
      (createVariableTokens s t).persisted = s.persisted ∧
      (createVariableTokens s t).loggedErrors = s.loggedErrors := by
    intro s t
    simp only [createVariableTokens]
    obtain ⟨a1, b1, c1⟩ := createToken_frame s t { src := some "duration" }
    obtain ⟨a2, b2, c2⟩ := createToken_frame (createToken s t { src := some "duration" }) t
      { src := some "currency", type := "string" }
    obtain ⟨a3, b3, c3⟩ := createToken_frame _ t { src := some "comparison", type := "number" }
    obtain ⟨a4, b4, c4⟩ := createToken_frame _ t { src := some "calculation", type := "number" }
    exact ⟨a4.trans (a3.trans (a2.trans a1)), b4.trans (b3.trans (b2.trans b1)),
      c4.trans (c3.trans (c2.trans c1))⟩
  have hr : ∀ (s : AppState) (d : String),
      (removeVariableTokens s d).appSettings = s.appSettings ∧
      (removeVariableTokens s d).persisted = s.persisted ∧
      (removeVariableTokens s d).loggedErrors = s.loggedErrors := by
    intro s d
    simp only [removeVariableTokens]
    obtain ⟨a1, b1, c1⟩ := removeToken_frame s d "duration"
    obtain ⟨a2, b2, c2⟩ := removeToken_frame _ d "currency"
    obtain ⟨a3, b3, c3⟩ := removeToken_frame _ d "comparison"
    obtain ⟨a4, b4, c4⟩ := removeToken_frame _ d "calculation"
    exact ⟨a4.trans (a3.trans (a2.trans a1)), b4.trans (b3.trans (b2.trans b1)),
      c4.trans (c3.trans (c2.trans c1))⟩
  have hfold : ∀ (step : AppState → String → AppState),
      (∀ (s : AppState) (t : String), (step s t).appSettings = s.appSettings ∧
        (step s t).persisted = s.persisted ∧ (step s t).loggedErrors = s.loggedErrors) →
      ∀ (l : List String) (s : AppState),
      (l.foldl step s).appSettings = s.appSettings ∧
      (l.foldl step s).persisted = s.persisted ∧
      (l.foldl step s).loggedErrors = s.loggedErrors := by
    intro step hstep l
    induction l with
    | nil => intro s; exact ⟨rfl, rfl, rfl⟩
    | cons t rest ih =>
      intro s
      obtain ⟨a, b, c⟩ := ih (step s t)
      obtain ⟨a', b', c'⟩ := hstep s t
      exact ⟨a.trans a', b.trans b', c.trans c'⟩
  simp only [setTokens]
  split
  · obtain ⟨a, b, c⟩ := hfold removeVariableTokens hr
      (oldNames.filter (fun x => !(newNames.contains x)))
      (newNames.foldl createVariableTokens s)
    obtain ⟨a', b', c'⟩ := hfold createVariableTokens hc newNames s
    exact ⟨a.trans a', b.trans b', c.trans c'⟩
  · exact hfold createVariableTokens hc newNames s

/-- C5: `createToken(name, kind, initialValue)` registers a new token with
the host only when no registry entry exists for the derived identifier
(otherwise it reuses the existing handle and performs no host
registration), and in both cases it unconditionally sets the handle's value
to the supplied initial value, overwriting any previous value. -/
theorem createToken_registers_once_and_sets_value (s : AppState) (n : String)
    (opts : TokenOptions) :
    lookupValue (createToken s n opts) (mkTokenId n opts.src) = some opts.value ∧
    ((lookupToken s.TOKENS (mkTokenId n opts.src) = none ∧
        (createToken s n opts).events =
          s.events ++ [HostEvent.register (mkTokenId n opts.src),
            HostEvent.setValue (mkTokenId n opts.src) opts.value]) ∨
      ((lookupToken s.TOKENS (mkTokenId n opts.src)).isSome = true ∧
        (createToken s n opts).events =
          s.events ++ [HostEvent.setValue (mkTokenId n opts.src) opts.value])) := by
  refine ⟨lookupValue_createToken_self s n opts, ?_⟩
  simp only [createToken, mkTokenId]
  cases h : lookupToken s.TOKENS
      (formatToken (n ++ " " ++ homeyTranslate ("helpers." ++ srcStr opts.src))) with
  | none =>
      left
      exact ⟨rfl, by simp [List.append_assoc]⟩
  | some t =>
      right
      exact ⟨by simp, by simp⟩

/-- C7: after `setTokens(newNames, oldNames)`, every name of `newNames` has
all four kind tokens (duration/currency/comparison/calculation) in the
registry, each holding the value `null`; and every name of `oldNames` that
is absent from `newNames` has none of its four kind tokens host-registered
any more. -/
theorem setTokens_reconciliation (s : AppState) (newNames oldNames : List String) :
    (∀ n ∈ newNames, ∀ k ∈ kindSrcs,
      lookupValue (setTokens s newNames oldNames) (mkTokenId n (some k)) = some JSVal.null) ∧
    (∀ d ∈ oldNames, d ∉ newNames → ∀ k ∈ kindSrcs,
      Unregd (setTokens s newNames oldNames) (mkTokenId d (some k))) := by
  constructor
  · intro n hn k hk
    simp only [setTokens]
    split
    · rw [lookupValue_foldl_remove]
      exact lookupValue_foldl_create_mem newNames s n hn k hk
    · exact lookupValue_foldl_create_mem newNames s n hn k hk
  · intro d hd hnd k hk
    simp only [setTokens]
    split
    · refine foldl_remove_unregd_mem _ _ _ ?_ k hk
      refine List.mem_filter.mpr ⟨hd, ?_⟩
      simp [hnd]
    · rename_i hlen
      exfalso
      have h0 : oldNames = [] := List.length_eq_zero.mp (by omega)
      rw [h0] at hd
      cases hd

/-- C7 witness: a concrete reconciliation. After `setTokens(["b"], [])`
followed by `setTokens(["a"], ["b"])`, the new name `a` has its duration
token with value null, and the removed name `b` has its duration token
unregistered. -/
theorem setTokens_reconciliation_witness :
    lookupValue (setTokens (setTokens initialState ["b"] []) ["a"] ["b"])
        (mkTokenId "a" (some "duration")) = some JSVal.null ∧
    ({ type := "string", title := "b helpers.duration", registered := false,
       value := JSVal.null } : Token).registered = false := by
  have h := setTokens_reconciliation (setTokens initialState ["b"] []) ["a"] ["b"]
  refine ⟨h.1 "a" (by decide) "duration" (by decide), ?_⟩
  exact h.2 "b" (by decide) (by decide) "duration" (by decide) _ (by rfl)

/-- C9: `updateSettings(newDocument, flag)` replaces the in-memory settings
document in every case; when persistence succeeds the document is persisted
to the host store; when persistence fails the error is swallowed (logged,
the function returns normally, no token work happens); token reconciliation
(`setTokens` on old vs new VARIABLES) runs exactly when the flag is true and
persistence succeeded; with the flag false the registry is untouched. -/
theorem updateSettings_spec (s : AppState) (settings : Settings) (update persistOk : Bool) :
    (updateSettings s settings update persistOk).appSettings = settings ∧
    (persistOk = true → (updateSettings s settings update persistOk).persisted = some settings) ∧
    (persistOk = false →
      (updateSettings s settings update persistOk).persisted = s.persisted ∧
      (updateSettings s settings update persistOk).TOKENS = s.TOKENS ∧
      (updateSettings s settings update persistOk).events = s.events ∧
      (updateSettings s settings update persistOk).loggedErrors = s.loggedErrors + 1) ∧
    (update = true → persistOk = true →
      updateSettings s settings update persistOk =
        setTokens
          { s with
            appSettings := settings
            persisted := some settings
            events := s.events ++ [HostEvent.persist] }
          settings.VARIABLES s.appSettings.VARIABLES) ∧
    (update = false → (updateSettings s settings update persistOk).TOKENS = s.TOKENS) := by
  cases persistOk with
  | false => cases update <;> simp [updateSettings]
  | true =>
    cases update with
    | false => simp [updateSettings]
    | true =>
      obtain ⟨a, b, c⟩ := setTokens_frame
        { s with
          appSettings := settings
          persisted := some settings
          events := s.events ++ [HostEvent.persist] }
        settings.VARIABLES s.appSettings.VARIABLES
      refine ⟨?_, fun _ => ?_, by simp, fun _ _ => by simp [updateSettings], by simp⟩
      · simpa [updateSettings] using a
      · simpa [updateSettings] using b

/-- C9 witness: a concrete call with the flag false and successful
persistence replaces and persists the document and leaves the registry
untouched. -/
theorem updateSettings_spec_witness :
    (updateSettings initialState
        { VARIABLES := ["a"], COMPARISONS := [], TOTALS := [] } false true).appSettings =
      { VARIABLES := ["a"], COMPARISONS := [], TOTALS := [] } ∧
    (updateSettings initialState
        { VARIABLES := ["a"], COMPARISONS := [], TOTALS := [] } false true).persisted =
      some { VARIABLES := ["a"], COMPARISONS := [], TOTALS := [] } ∧
    (updateSettings initialState
        { VARIABLES := ["a"], COMPARISONS := [], TOTALS := [] } false true).TOKENS =
      initialState.TOKENS := by
  have h := updateSettings_spec initialState
    { VARIABLES := ["a"], COMPARISONS := [], TOTALS := [] } false true
  exact ⟨h.1, h.2.1 rfl, h.2.2.2.2 rfl⟩

/-- C1: the claimed per-name uniqueness invariant of COMPARISONS fails on
the code. `action_START` filters by `setting.name !== token`, but the
entries it appends carry the key `token` and no `name` property, so the
filter never removes anything: two starts for the same name from the
initial state leave TWO entries for that name in COMPARISONS. -/
theorem double_start_duplicates :
    ((action_START
        (action_START initialState "a" { dateStart := some 0, comparison := JSVal.num 1 } 0 true)
        "a" { dateStart := some 0, comparison := JSVal.num 2 } 1 true).appSettings.COMPARISONS.filter
      (fun e => e.token == "a")).length = 2 := by rfl

/-- C2: ending a comparison that was never started does fail without state
mutation, but not with the NotFound error: `find` compares the absent
`name` property, yields `undefined`, and `existing_comparison.date` throws
a TypeError before the `throw new Error('No comparison found ...')` check
is reached. From the initial state (no COMPARISONS entry for "a"),
`action_END("a", 5)` is a TypeError. -/
theorem action_END_without_start_throws_TypeError :
    initialState.appSettings.COMPARISONS = [] ∧
    action_END initialState "a" (JSVal.num 5) 0 true =
      Except.error (JSError.typeError "a") := ⟨rfl, rfl⟩

/-- C3: `action_START` does append a fresh entry with the current timestamp
and the supplied baseline and always succeeds, but it does NOT replace the
prior entry for the same name: the filter compares the absent `name`
property, so the old entry survives alongside the new one. -/
theorem start_does_not_replace_prior_entry :
    (action_START
        (action_START initialState "a" { dateStart := some 0, comparison := JSVal.num 1 } 5 true)
        "a" { dateStart := some 0, comparison := JSVal.num 2 } 9 true).appSettings.COMPARISONS =
      [{ token := "a", date := some 5, comparison := JSVal.num 1 },
       { token := "a", date := some 9, comparison := JSVal.num 2 }] := by rfl

/-- C4: `start("a", 5)` followed by `end("a", 7)` does NOT produce a TOTALS
entry: although a COMPARISONS entry with token "a" exists, `action_END`'s
`find` compares the absent `name` property, finds nothing, and throws a
TypeError; no TOTALS entry and no token update ever happen. -/
theorem start_then_end_throws :
    ((action_START initialState "a" { dateStart := some 0, comparison := JSVal.num 5 }
        0 true).appSettings.COMPARISONS.map CompEntry.token = ["a"]) ∧
    action_END
        (action_START initialState "a" { dateStart := some 0, comparison := JSVal.num 5 } 0 true)
        "a" (JSVal.num 7) 3 true =
      Except.error (JSError.typeError "a") := ⟨rfl, rfl⟩

/-- C6: `removeToken` requests host-side unregistration but does NOT drop
the local handle: after creating and then removing the "a"/duration token,
the registry still holds an entry for that identifier (with the handle
unregistered). -/
theorem removeToken_keeps_local_handle :
    lookupToken
        (removeToken (createToken initialState "a" { src := some "duration" }) "a" "duration").TOKENS
        (mkTokenId "a" (some "duration")) =
      some { type := "string", title := "a helpers.duration", registered := false,
             value := JSVal.null } := by rfl

/-- C8: `setTokens` is NOT idempotent with respect to host unregistration:
because `removeToken` leaves the stale handle in the registry, a second
identical `setTokens([], ["a"])` call finds the handles again and issues
four MORE `unregister` host calls beyond the first call's. -/
theorem setTokens_second_call_reunregisters :
    countUnregister
        (setTokens (setTokens (setTokens initialState ["a"] []) [] ["a"]) [] ["a"]).events =
      countUnregister (setTokens (setTokens initialState ["a"] []) [] ["a"]).events + 4 := by rfl

/-- C10: with a started comparison for "a", `action_END("a", 0)` does not
produce a TOTALS entry at all — the `find` on the absent `name` property
throws a TypeError first — so the claimed comparison-null TOTALS entry
never materializes; the second half does hold: a zero difference makes
`calculateComparison` return the number `0`, not the string "0.00". -/
theorem end_with_zero_value_and_zero_comparison :
    ((action_START initialState "a" { dateStart := some 0, comparison := JSVal.num 5 }
        0 true).appSettings.COMPARISONS.map CompEntry.token = ["a"]) ∧
    action_END
        (action_START initialState "a" { dateStart := some 0, comparison := JSVal.num 5 } 0 true)
        "a" (JSVal.num 0) 1 true =
      Except.error (JSError.typeError "a") ∧
    calculateComparison (JSVal.num 5) (JSVal.num 5) = JSVal.num 0 :=
  ⟨rfl, rfl, by simp [calculateComparison, parseFloat]⟩
